import Mathlib

/-!
Verification of the `pikaminiapp` client library.

This development shallowly embeds the client's pure logic: the response
envelope handling and error classification (`pikaminiapp/exceptions.py`,
`pikaminiapp/sync/http.py`, `pikaminiapp/aio/http.py`), the model decoders
(`pikaminiapp/models/media.py`, `pikaminiapp/models/assets.py`), the
cursor pagination loop (`sync/resources/assets.py`, `aio/resources/media.py`),
the blueprint upsert body construction (`aio/resources/character.py`) and the
upload pipeline (`aio/resources/media.py`).

Strings are modelled as lists of characters restricted to the ASCII range the
service's wire protocol uses; JSON numbers are modelled as integers (no claim
under study involves floating point).  External effects (HTTP responses, the
random UUID source, the `mimetypes` table, raw file bytes) are passed in as
explicit parameters, so that every function is a pure function of the data the
Python code observes.
-/

namespace Pika



/-- Strings of the wire protocol, modelled as character lists. -/
abbrev Str := List Char

/-- JSON values as the Python client sees them after `response.json()`.
Numbers are integers; objects are association lists in insertion order
(parsed JSON objects have pairwise distinct keys). -/
inductive JValue where
  | null : JValue
  | bool (b : Bool) : JValue
  | num (n : Int) : JValue
  | str (s : Str) : JValue
  | arr (xs : List JValue) : JValue
  | obj (fields : List (Str × JValue)) : JValue

/-- A JSON object body: the association list of its fields. -/
abbrev JObj := List (Str × JValue)

/-- `o.get(k)` on a Python dict: first binding of the key, if any. -/
def jlookup (k : Str) : JObj → Option JValue
  | [] => none
  | (k₁, v) :: rest => if k₁ = k then some v else jlookup k rest

/-- `o.get(k, d)`: lookup with a default for an absent key.  Note that the
default is used only when the key is absent, not when it maps to `null`. -/
def jgetD (o : JObj) (k : Str) (d : JValue) : JValue :=
  (jlookup k o).getD d

/-- Python truthiness of the value found at a key (`None`, `False`, `0`,
empty string/list/object are falsy; an absent key yields `None`). -/
def jTruthy : Option JValue → Bool
  | none => false
  | some JValue.null => false
  | some (JValue.bool b) => b
  | some (JValue.num n) => n ≠ 0
  | some (JValue.str s) => !s.isEmpty
  | some (JValue.arr xs) => !xs.isEmpty
  | some (JValue.obj fields) => !fields.isEmpty

def successKey : Str := ("success").toList

def dataKey : Str := ("data").toList

def errorKey : Str := ("error").toList

def codeKey : Str := ("code").toList

def messageKey : Str := ("message").toList

/-- The closed set of API error kinds: the exception classes
`MiniAppAuthError`, `MiniAppForbiddenError`, `MiniAppNotFoundError`,
`MiniAppConflictError`, `MiniAppValidationError` and the generic
`MiniAppAPIError` of `pikaminiapp/exceptions.py`. -/
inductive ErrKind where
  | auth | forbidden | notFound | conflict | validation | generic
deriving DecidableEq, Repr

/-- A raised API error: its kind together with the original code and
message (every `MiniAppAPIError` subclass stores both verbatim). -/
structure ApiError where
  kind : ErrKind
  code : Str
  message : Str
deriving DecidableEq, Repr

/-- Parse three characters as a decimal number, as `int(code[-3:])` does.
Python's `int` would additionally accept signed or space-padded forms, but
no such 3-character string can denote any of the statuses 401/403/404/409/422,
so the digits-only parse is classification-equivalent. -/
def parseDec3 : Str → Option Nat
  | [a, b, c] =>
      if a.isDigit && b.isDigit && c.isDigit then
        some (100 * (a.toNat - 48) + 10 * (b.toNat - 48) + (c.toNat - 48))
      else none
  | _ => none

/-- The last three characters of a string, `code[-3:]` in the source. -/
def lastThree (code : Str) : Str :=
  (code.reverse.take 3).reverse

/-- `_extract_status` of `pikaminiapp/exceptions.py`: extract the HTTP status
from an error code such as A000404, when the code has at least 7 characters
and starts with a letter. -/
def extract_status (code : Str) : Option Nat :=
  if decide (7 ≤ code.length) && (match code with | [] => false | c :: _ => c.isAlpha) then
    parseDec3 (lastThree code)
  else none

/-- The dispatch of `MiniAppAPIError.from_error_dict` once code and message
strings are in hand: pick the exception kind from the extracted status. -/
def classify (code message : Str) : ApiError :=
  match extract_status code with
  | some 401 => ⟨ErrKind.auth, code, message⟩
  | some 403 => ⟨ErrKind.forbidden, code, message⟩
  | some 404 => ⟨ErrKind.notFound, code, message⟩
  | some 409 => ⟨ErrKind.conflict, code, message⟩
  | some 422 => ⟨ErrKind.validation, code, message⟩
  | _ => ⟨ErrKind.generic, code, message⟩

/-- The spec-side status extraction, written from the spec's words: the
trailing three characters of `code` are read as a decimal number exactly when
`code` is at least 7 characters long and starts with a letter. -/
def spec_status (code : Str) : Option Nat :=
  if decide (7 ≤ code.length) && (match code with | [] => false | c :: _ => c.isAlpha) then
    parseDec3 (code.drop (code.length - 3))
  else none

/-- The spec-side classifier (spec sections 4.2 and 8): 401 maps to Auth,
403 to Forbidden, 404 to NotFound, 409 to Conflict, 422 to Validation, and
every other case to the generic API error, preserving code and message. -/
def classify_spec (code message : Str) : ApiError :=
  match spec_status code with
  | some 401 => ⟨ErrKind.auth, code, message⟩
  | some 403 => ⟨ErrKind.forbidden, code, message⟩
  | some 404 => ⟨ErrKind.notFound, code, message⟩
  | some 409 => ⟨ErrKind.conflict, code, message⟩
  | some 422 => ⟨ErrKind.validation, code, message⟩
  | _ => ⟨ErrKind.generic, code, message⟩

/-- Outcome of a client call that does not return a payload: a transport
failure (`MiniAppError` raised for network or JSON problems), a classified
API error, or an uncaught Python-level type error (for response shapes the
source would crash on, e.g. `error.get` on a non-dict). -/
inductive Outcome where
  | transport (msg : Str)
  | api (e : ApiError)
  | pythonTypeError
deriving DecidableEq, Repr

/-- `MiniAppAPIError.from_error_dict`: read `code` (default UNKNOWN) and
`message` (default Unknown error) from the error object and classify.  A
non-string value under either key is modelled as a Python-level type error. -/
def from_error_dict (e : JObj) : Except Unit ApiError := do
  let code ← match jlookup codeKey e with
    | none => pure ("UNKNOWN").toList
    | some (JValue.str s) => pure s
    | some _ => throw ()
  let message ← match jlookup messageKey e with
    | none => pure ("Unknown error").toList
    | some (JValue.str s) => pure s
    | some _ => throw ()
  pure (classify code message)

/-- `_handle_response` on an already-parsed JSON object: when `success` is
falsy, classify and raise the error object (defaulting to the empty object
when the `error` key is absent); otherwise return the `data` field,
defaulting to the empty object. -/
def handle_response (d : JObj) : Except Outcome JValue :=
  match jTruthy (jlookup successKey d) with
  | false =>
      match jlookup errorKey d with
      | none =>
          match from_error_dict [] with
          | Except.ok a => Except.error (Outcome.api a)
          | Except.error _ => Except.error Outcome.pythonTypeError
      | some (JValue.obj e) =>
          match from_error_dict e with
          | Except.ok a => Except.error (Outcome.api a)
          | Except.error _ => Except.error Outcome.pythonTypeError
      | some _ => Except.error Outcome.pythonTypeError
  | true => Except.ok (jgetD d dataKey (JValue.obj []))

/-- A GET/POST call as seen from the response side: `none` stands for a body
that fails to parse as JSON (raising the transport-level `MiniAppError`);
a parsed non-object body would crash on `data.get`. -/
def call_response (body : Option JValue) : Except Outcome JValue :=
  match body with
  | none => Except.error (Outcome.transport ("Invalid JSON response").toList)
  | some (JValue.obj d) => handle_response d
  | some _ => Except.error Outcome.pythonTypeError

def characterIdKey : Str := ("characterId").toList

def goalKey : Str := ("goal").toList

/-- Python dict update (splat `o` then set key `k` to `v`): replace the
binding of `k` in place when present, otherwise append it at the end.
Objects decoded from JSON have pairwise distinct keys, so replacing the
first binding is replacing the only one. -/
def dictSet (o : JObj) (k : Str) (v : JValue) : JObj :=
  match o with
  | [] => [(k, v)]
  | (k₁, v₁) :: rest =>
      if k₁ = k then (k, v) :: rest else (k₁, v₁) :: dictSet rest k v

def corePersonalityKey : Str := ("corePersonality").toList
def expressionEngineKey : Str := ("expressionEngine").toList
def aestheticEngineKey : Str := ("aestheticEngine").toList
def simulationKey : Str := ("simulation").toList
def backstoryKey : Str := ("backstory").toList
def backstoryUpdatedAtKey : Str := ("backstoryUpdatedAt").toList
def onboardingInputKey : Str := ("onboardingInput").toList
def prototypeKey : Str := ("prototype").toList

/-- `CharacterBlueprintState` of `models/character.py`: every section is an
optional object (`dict | None`), plus the optional backstory timestamp.
A field left at its default and a field explicitly set to None hold the
same value — the model cannot tell the two apart. -/
structure CharacterBlueprintState where
  core_personality : Option JObj
  expression_engine : Option JObj
  aesthetic_engine : Option JObj
  simulation : Option JObj
  goal : Option JObj
  backstory : Option JObj
  backstory_updated_at : Option Int
  onboarding_input : Option JObj
  prototype : Option JObj

/-- One dumped object-valued field: present under its alias exactly when
the field is not None (`exclude_none=True`). -/
def optObjField (k : Str) (v : Option JObj) : JObj :=
  match v with
  | some o => [(k, JValue.obj o)]
  | none => []

/-- One dumped integer-valued field, likewise. -/
def optIntField (k : Str) (v : Option Int) : JObj :=
  match v with
  | some n => [(k, JValue.num n)]
  | none => []

/-- `model_dump(by_alias=True, exclude_none=True)` on a blueprint state:
the aliased keys of the non-None fields, in field declaration order.
Fields that are None — whether defaulted or explicitly set — are omitted. -/
def CharacterBlueprintState.model_dump (b : CharacterBlueprintState) : JObj :=
  optObjField corePersonalityKey b.core_personality ++
    (optObjField expressionEngineKey b.expression_engine ++
      (optObjField aestheticEngineKey b.aesthetic_engine ++
        (optObjField simulationKey b.simulation ++
          (optObjField goalKey b.goal ++
            (optObjField backstoryKey b.backstory ++
              (optIntField backstoryUpdatedAtKey b.backstory_updated_at ++
                (optObjField onboardingInputKey b.onboarding_input ++
                  optObjField prototypeKey b.prototype)))))))

/-- The two shapes `upsert_blueprint_state` accepts for its `blueprint`
argument: a `CharacterBlueprintState` model or a plain dict. -/
inductive BlueprintArg where
  | state (b : CharacterBlueprintState)
  | dict (o : JObj)

/-- The request body built by `AsyncCharacterResource.upsert_blueprint_state`:
a model-valued blueprint is serialized with
`model_dump(by_alias=True, exclude_none=True)` while a dict-valued one is
taken as-is; then `characterId` is set to the character id. -/
def upsert_blueprint_state_body (blueprint : BlueprintArg)
    (character_id : Str) : JObj :=
  match blueprint with
  | BlueprintArg.state b =>
      dictSet b.model_dump characterIdKey (JValue.str character_id)
  | BlueprintArg.dict o => dictSet o characterIdKey (JValue.str character_id)

/-- `_make_unique_filename` of `aio/resources/media.py`:
`uuid.uuid4().hex[:12] + "_" + filename`.  The random 32-character UUID hex
string is passed in explicitly as `uuidHex`. -/
def make_unique_filename (uuidHex : Str) (filename : Str) : Str :=
  uuidHex.take 12 ++ ('_' :: filename)

/-- One decoded page as the pagination loop observes it: the items in server
order, the continuation cursor, and the has-more flag. -/
structure RespPage (α : Type) where
  items : List α
  cursor : Option Str
  has_more : Bool

/-- The auto-paginating loop shared by `AssetsResource.iter` and
`AsyncMediaResource.iter_album`: request a page with the current cursor,
yield its items, stop when `has_more` is false, else continue with the
page's cursor.  `pages` is the mock server's list of successive responses;
the result pairs the cursor each request carried with all yielded items,
and is `none` when the mock runs out of responses before the loop stops. -/
def iterRun {α : Type} (c : Option Str) : List (RespPage α) → Option (List (Option Str) × List α)
  | [] => none
  | p :: rest =>
      if p.has_more then
        match iterRun p.cursor rest with
        | some (tr, xs) => some (c :: tr, p.items ++ xs)
        | none => none
      else some ([c], p.items)

/-- The media kind discriminant, the `Literal` of `models/media.py`. -/
inductive Kind where
  | image | video | audio
deriving DecidableEq, Repr

/-- Wire form of a kind. -/
def Kind.wire : Kind → Str
  | Kind.image => ("image").toList
  | Kind.video => ("video").toList
  | Kind.audio => ("audio").toList

/-- `ImagePayload` of `models/media.py`. -/
structure ImagePayload where
  image_url : Str
  width : Option Int
  height : Option Int
deriving DecidableEq, Repr

/-- `VideoPayload` of `models/media.py` (image_url is the thumbnail). -/
structure VideoPayload where
  video_url : Str
  image_url : Option Str
  width : Option Int
  height : Option Int
  duration_ms : Option Int
deriving DecidableEq, Repr

/-- `AudioPayload` of `models/media.py`. -/
structure AudioPayload where
  audio_url : Str
  duration_ms : Option Int
deriving DecidableEq, Repr

/-- The payload union of `MediaAsset.payload`. -/
inductive MPayload where
  | image (p : ImagePayload)
  | video (p : VideoPayload)
  | audio (p : AudioPayload)
deriving DecidableEq, Repr

/-- `MediaAsset` of `models/media.py`. -/
structure MediaAsset where
  media_id : Str
  kind : Kind
  payload : MPayload
  prompt : Option Str
  prompt_mentions : Option (List Str)
  created_at : Option Int
deriving DecidableEq, Repr

/-- `PresignedUpload` of `models/media.py`. -/
structure PresignedUpload where
  presigned_url : Str
  file_url : Str
deriving DecidableEq, Repr

/-- `UploadResult` of `models/media.py`. -/
structure UploadResult where
  media_id : Str
  url : Str
  media : MediaAsset
  album_id : Option Str
deriving DecidableEq, Repr

/-- One outgoing call of the upload pipeline, with the request data each
step sends. -/
inductive Call where
  | presign (fileType : Str) (filename : Str)
  | putRaw (url : Str) (content : List Nat) (contentType : Str)
  | createMedia (url : Str) (kind : Kind) (source : Option Str)
  | addToAlbum (characterId : Str) (mediaId : Str) (captured : Bool)
deriving DecidableEq, Repr

/-- The step a call belongs to, for stating call-order properties. -/
inductive CallKind where
  | presign | putRaw | createMedia | addToAlbum
deriving DecidableEq, Repr

/-- Classify a call by its step. -/
def Call.kindOf : Call → CallKind
  | Call.presign _ _ => CallKind.presign
  | Call.putRaw _ _ _ => CallKind.putRaw
  | Call.createMedia _ _ _ => CallKind.createMedia
  | Call.addToAlbum _ _ _ => CallKind.addToAlbum

/-- The mock transport's canned responses for one upload: the presign
response, the created `MediaAsset`, and the albumId the add-to-album call
returns. -/
structure MockServer where
  presignResp : PresignedUpload
  createResp : MediaAsset
  addAlbumId : Str

/-- Content-type resolution of `upload_bytes`: caller-supplied value, else
`mimetypes.guess_type` (passed in as `guess`), else the generic binary
fallback. -/
def resolve_content_type (guess : Str → Option Str) (filename : Str) :
    Option Str → Str
  | some ct => ct
  | none =>
      match guess filename with
      | some ct => ct
      | none => ("application/octet-stream").toList

/-- `AsyncMediaResource.upload_bytes` over a mock transport: resolve the
content type, make the filename unique, request a presigned upload, PUT the
raw bytes, create the media asset; the result's album_id is `None`.
Returns the calls issued in order together with the `UploadResult`. -/
def upload_bytes (srv : MockServer) (guess : Str → Option Str) (uuidHex : Str)
    (content : List Nat) (filename : Str) (content_type : Option Str)
    (kind : Kind) (source : Option Str) : List Call × UploadResult :=
  let ct := resolve_content_type guess filename content_type
  let uf := make_unique_filename uuidHex filename
  ([Call.presign kind.wire uf,
    Call.putRaw srv.presignResp.presigned_url content ct,
    Call.createMedia srv.presignResp.file_url kind source],
   ⟨srv.createResp.media_id, srv.presignResp.file_url, srv.createResp, none⟩)

/-- `AsyncMediaResource.upload_bytes_to_album`: `upload_bytes`, then
`add_to_album` with the uploaded media's id, recording the returned
albumId on the result. -/
def upload_bytes_to_album (srv : MockServer) (guess : Str → Option Str)
    (uuidHex : Str) (character_id : Str) (content : List Nat) (filename : Str)
    (content_type : Option Str) (kind : Kind) (source : Option Str)
    (captured : Bool) : List Call × UploadResult :=
  let r := upload_bytes srv guess uuidHex content filename content_type kind source
  (r.1 ++ [Call.addToAlbum character_id r.2.media_id captured],
   ⟨r.2.media_id, r.2.url, r.2.media, some srv.addAlbumId⟩)

/-- Outcome of the raw storage PUT at the HTTP level: a status code, or a
network-level failure with no response. -/
inductive RawResult where
  | status (n : Nat)
  | netFail
deriving DecidableEq, Repr

/-- One raw HTTP request as issued on the wire. -/
structure RawRequest where
  url : Str
  headers : List (Str × Str)
  content : List Nat
deriving DecidableEq, Repr

def contentTypeHeader : Str := ("Content-Type").toList

def authHeader : Str := ("Authorization").toList

/-- Whether a header list carries the named header. -/
def hasHeader (hs : List (Str × Str)) (k : Str) : Bool :=
  hs.any (fun kv => kv.1 = k)

/-- `put_file` of `sync/http.py` and `aio/http.py`: one PUT of the raw bytes
to the presigned URL through a fresh client carrying only the Content-Type
header (no auth); `raise_for_status` succeeds exactly on 2xx, and any
non-2xx status or network failure is re-raised as the transport-level
`MiniAppError` (Upload failed). -/
def put_file (r : RawResult) (url : Str) (content : List Nat) (ct : Str) :
    List RawRequest × Except Outcome Unit :=
  ([⟨url, [(contentTypeHeader, ct)], content⟩],
   match r with
   | RawResult.status n =>
       if 200 ≤ n ∧ n ≤ 299 then Except.ok ()
       else Except.error (Outcome.transport (("Upload failed").toList))
   | RawResult.netFail =>
       Except.error (Outcome.transport (("Upload failed").toList)))

/-- Whether the HTTP outcome is a 2xx success. -/
def is2xx : RawResult → Bool
  | RawResult.status n => decide (200 ≤ n) && decide (n ≤ 299)
  | RawResult.netFail => false

/-- Whether a call outcome is a classified API error. -/
def isApiOutcome : Except Outcome Unit → Bool
  | Except.error (Outcome.api _) => true
  | _ => false

def mediaIdKey : Str := ("mediaId").toList

def kindKey : Str := ("kind").toList

def payloadKey : Str := ("payload").toList

def imageUrlKey : Str := ("imageUrl").toList

def videoUrlKey : Str := ("videoUrl").toList

def audioUrlKey : Str := ("audioUrl").toList

def widthKey : Str := ("width").toList

def heightKey : Str := ("height").toList

def durationMsKey : Str := ("durationMs").toList

def promptKey : Str := ("prompt").toList

def promptMentionsKey : Str := ("promptMentions").toList

def createdAtKey : Str := ("createdAt").toList

def idKey : Str := ("id").toList

def mediaKey : Str := ("media").toList

def objectNameKey : Str := ("objectName").toList

def nameKey : Str := ("name").toList

def typeKey : Str := ("type").toList

def usernameKey : Str := ("username").toList

def itemsKey : Str := ("items").toList

def nextKey : Str := ("next").toList

def cursorKey : Str := ("cursor").toList

def hasMoreKey : Str := ("hasMore").toList

def totalKey : Str := ("total").toList

/-- Decode an optional string field (absent or null gives none; a value of
any other type than string is rejected). -/
def decodeOptStr (v : Option JValue) : Option (Option Str) :=
  match v with
  | none => some none
  | some JValue.null => some none
  | some (JValue.str s) => some (some s)
  | some _ => none

/-- Decode an optional integer field. -/
def decodeOptInt (v : Option JValue) : Option (Option Int) :=
  match v with
  | none => some none
  | some JValue.null => some none
  | some (JValue.num n) => some (some n)
  | some _ => none

/-- Decode a list of strings. -/
def decodeStrList : List JValue → Option (List Str)
  | [] => some []
  | JValue.str s :: rest =>
      match decodeStrList rest with
      | some ss => some (s :: ss)
      | none => none
  | _ :: _ => none

/-- Decode an optional list-of-strings field. -/
def decodeOptStrList (v : Option JValue) : Option (Option (List Str)) :=
  match v with
  | none => some none
  | some JValue.null => some none
  | some (JValue.arr xs) =>
      match decodeStrList xs with
      | some ss => some (some ss)
      | none => none
  | some _ => none

/-- `ImagePayload.model_validate`: imageUrl required, width/height optional. -/
def decodeImagePayload (o : JObj) : Option ImagePayload :=
  match jlookup imageUrlKey o, decodeOptInt (jlookup widthKey o),
      decodeOptInt (jlookup heightKey o) with
  | some (JValue.str iu), some w, some h => some ⟨iu, w, h⟩
  | _, _, _ => none

/-- `VideoPayload.model_validate`: videoUrl required, the rest optional. -/
def decodeVideoPayload (o : JObj) : Option VideoPayload :=
  match jlookup videoUrlKey o, decodeOptStr (jlookup imageUrlKey o),
      decodeOptInt (jlookup widthKey o), decodeOptInt (jlookup heightKey o),
      decodeOptInt (jlookup durationMsKey o) with
  | some (JValue.str vu), some iu, some w, some h, some d =>
      some ⟨vu, iu, w, h, d⟩
  | _, _, _, _, _ => none

/-- `AudioPayload.model_validate`: audioUrl required, duration optional. -/
def decodeAudioPayload (o : JObj) : Option AudioPayload :=
  match jlookup audioUrlKey o, decodeOptInt (jlookup durationMsKey o) with
  | some (JValue.str au), some d => some ⟨au, d⟩
  | _, _ => none

/-- The kind-directed payload parse of `MediaAsset.__init__`: inspect the
`kind` value first and parse the payload object with the matching variant;
a kind outside the three literals can never validate. -/
def decodeKindPayload (kindV : JValue) (po : JObj) : Option (Kind × MPayload) :=
  match kindV with
  | JValue.str s =>
      if s = ("image").toList then
        (decodeImagePayload po).map (fun p => (Kind.image, MPayload.image p))
      else if s = ("video").toList then
        (decodeVideoPayload po).map (fun p => (Kind.video, MPayload.video p))
      else if s = ("audio").toList then
        (decodeAudioPayload po).map (fun p => (Kind.audio, MPayload.audio p))
      else none
  | _ => none

/-- `MediaAsset.model_validate`: mediaId and kind and payload are required
(payload must be an object, parsed according to kind); prompt,
promptMentions and createdAt are optional. -/
def decodeMediaAsset (j : JValue) : Option MediaAsset :=
  match j with
  | JValue.obj o =>
      match jlookup mediaIdKey o, jlookup kindKey o, jlookup payloadKey o with
      | some (JValue.str mid), some kindV, some (JValue.obj po) =>
          match decodeKindPayload kindV po with
          | some kp =>
              match decodeOptStr (jlookup promptKey o),
                  decodeOptStrList (jlookup promptMentionsKey o),
                  decodeOptInt (jlookup createdAtKey o) with
              | some pr, some pm, some ca => some ⟨mid, kp.1, kp.2, pr, pm, ca⟩
              | _, _, _ => none
          | none => none
      | _, _, _ => none
  | _ => none

/-- Whether a payload's active variant matches the kind discriminant. -/
def payloadMatchesKind (k : Kind) (p : MPayload) : Bool :=
  match k, p with
  | Kind.image, MPayload.image _ => true
  | Kind.video, MPayload.video _ => true
  | Kind.audio, MPayload.audio _ => true
  | _, _ => false

/-- `CreationAsset` of `models/assets.py`. -/
structure CreationAsset where
  id : Str
  media : MediaAsset
  object_name : Str
  name : Str
  type : Str
  username : Option Str
deriving DecidableEq, Repr

/-- `CreationAsset.model_validate`. -/
def decodeCreationAsset (j : JValue) : Option CreationAsset :=
  match j with
  | JValue.obj o =>
      match jlookup idKey o, jlookup mediaKey o, jlookup objectNameKey o,
          jlookup nameKey o, jlookup typeKey o with
      | some (JValue.str i), some mv, some (JValue.str ob),
          some (JValue.str nm), some (JValue.str ty) =>
          match decodeMediaAsset mv, decodeOptStr (jlookup usernameKey o) with
          | some m, some u => some ⟨i, m, ob, nm, ty, u⟩
          | _, _ => none
      | _, _, _, _, _ => none
  | _ => none

/-- Validate each element of the raw items list. -/
def decodeAssetList : List JValue → Option (List CreationAsset)
  | [] => some []
  | j :: rest =>
      match decodeCreationAsset j, decodeAssetList rest with
      | some a, some tail => some (a :: tail)
      | _, _ => none

/-- `CreationAssetPage` of `models/assets.py`. -/
structure CreationAssetPage where
  items : List CreationAsset
  cursor : Option Str
  has_more : Bool
  total : Int
deriving DecidableEq, Repr

/-- `data.get("items", [])`: the raw items list, empty when absent. -/
def decodeItemsRaw (v : Option JValue) : Option (List JValue) :=
  match v with
  | none => some []
  | some (JValue.arr xs) => some xs
  | some _ => none

/-- `data.get("next") or \x7b\x7d`: a falsy or absent next gives the empty
object; a truthy non-object cannot be used as one. -/
def decodeNextInfo (v : Option JValue) : Option JObj :=
  match v with
  | none => some []
  | some w =>
      if jTruthy (some w) then
        match w with
        | JValue.obj no => some no
        | _ => none
      else some []

/-- `next_info.get("hasMore", False)`. -/
def decodeHasMore (v : Option JValue) : Option Bool :=
  match v with
  | none => some false
  | some (JValue.bool b) => some b
  | some _ => none

/-- `data.get("total", 0)`. -/
def decodeTotal (v : Option JValue) : Option Int :=
  match v with
  | none => some (0 : Int)
  | some (JValue.num n) => some n
  | some _ => none

/-- `AssetsResource.list` on an unwrapped response payload: validate the
items, read cursor and hasMore from the `next` object and `total` from the
payload, and build the `CreationAssetPage`. -/
def assets_list (data : JObj) : Option CreationAssetPage :=
  match decodeItemsRaw (jlookup itemsKey data) with
  | none => none
  | some raw =>
      match decodeAssetList raw, decodeNextInfo (jlookup nextKey data) with
      | some items, some nextInfo =>
          match decodeOptStr (jlookup cursorKey nextInfo),
              decodeHasMore (jlookup hasMoreKey nextInfo),
              decodeTotal (jlookup totalKey data) with
          | some cur, some hm, some tot => some ⟨items, cur, hm, tot⟩
          | _, _, _ => none
      | _, _ => none

/-- The last three characters are the drop of all but three. -/
theorem lastThree_eq_drop (code : Str) :
    lastThree code = code.drop (code.length - 3) := by
  rw [lastThree, ← List.rtake_eq_reverse_take_reverse]
  simp [List.rtake]

/-- The source's status extraction agrees with the spec-side description. -/
theorem extract_status_eq_spec_status (code : Str) :
    extract_status code = spec_status code := by
  simp only [extract_status, spec_status, lastThree_eq_drop]

/-- C1: A call whose envelope has `success` true returns exactly the `data`
field (empty object when `data` is absent), and a falsy `success` never
returns a value; in particular a synthetic response with `success` true and
`data` P decodes to exactly P, and one with `success` false and error code
X000404 / message m raises the NotFound kind carrying that code and message. -/
theorem envelope_unwrap_claim (P : JValue) (m : Str) (d : JObj) :
    handle_response [(successKey, JValue.bool true), (dataKey, P)] = Except.ok P
    ∧ handle_response [(successKey, JValue.bool false),
        (errorKey, JValue.obj
          [(codeKey, JValue.str ("X000404").toList), (messageKey, JValue.str m)])] =
        Except.error (Outcome.api ⟨ErrKind.notFound, ("X000404").toList, m⟩)
    ∧ (jTruthy (jlookup successKey d) = true →
        handle_response d = Except.ok (jgetD d dataKey (JValue.obj [])))
    ∧ (jTruthy (jlookup successKey d) = false →
        ∀ v, handle_response d ≠ Except.ok v) := by
  refine ⟨rfl, rfl, ?_, ?_⟩
  · intro h
    simp [handle_response, h]
  · intro h v
    simp only [handle_response, h]
    rcases jlookup errorKey d with _ | e
    · exact fun hc => Except.noConfusion hc
    · rcases e with _ | _ | _ | _ | _ | fields
      all_goals simp
      rcases from_error_dict fields with _ | a <;> simp

/-- C1 witness: an envelope with `success` true and no `data` unwraps to the
empty object. -/
theorem envelope_unwrap_claim_w :
    handle_response [(successKey, JValue.bool true)] = Except.ok (JValue.obj []) :=
  (envelope_unwrap_claim JValue.null [] [(successKey, JValue.bool true)]).2.2.1 rfl

/-- C2: The error classifier agrees with the spec's description everywhere
(status read from the trailing three characters exactly for 7+-character
letter-led codes; 401 Auth, 403 Forbidden, 404 NotFound, 409 Conflict,
422 Validation, everything else generic), always preserves code and message,
and realizes the spec's concrete table including A000500 and short codes. -/
theorem classifier_claim (code msg : Str) :
    classify code msg = classify_spec code msg
    ∧ (classify code msg).code = code
    ∧ (classify code msg).message = msg
    ∧ (classify ("A000401").toList msg).kind = ErrKind.auth
    ∧ (classify ("A000403").toList msg).kind = ErrKind.forbidden
    ∧ (classify ("A000404").toList msg).kind = ErrKind.notFound
    ∧ (classify ("A000409").toList msg).kind = ErrKind.conflict
    ∧ (classify ("A000422").toList msg).kind = ErrKind.validation
    ∧ (classify ("A000500").toList msg).kind = ErrKind.generic
    ∧ (classify ("short").toList msg).kind = ErrKind.generic := by
  refine ⟨?_, ?_, ?_, rfl, rfl, rfl, rfl, rfl, rfl, rfl⟩
  · unfold classify classify_spec
    rw [extract_status_eq_spec_status]
  · unfold classify
    split <;> rfl
  · unfold classify
    split <;> rfl

/-- C10: A response object with falsy or absent `success` and no `error`
member raises the generic API error with code UNKNOWN and message
Unknown error — it neither returns a value nor raises a transport error. -/
theorem unknown_error_claim (d : JObj)
    (hs : jTruthy (jlookup successKey d) = false)
    (he : jlookup errorKey d = none) :
    call_response (some (JValue.obj d)) =
      Except.error (Outcome.api
        ⟨ErrKind.generic, ("UNKNOWN").toList, ("Unknown error").toList⟩) := by
  simp only [call_response, handle_response, hs, he]
  rfl

/-- C10 witness: the empty response object raises the generic UNKNOWN error. -/
theorem unknown_error_claim_w :
    call_response (some (JValue.obj [])) =
      Except.error (Outcome.api
        ⟨ErrKind.generic, ("UNKNOWN").toList, ("Unknown error").toList⟩) :=
  unknown_error_claim [] rfl rfl

/-- Setting a key yields that key's new value. -/
theorem jlookup_dictSet_self (o : JObj) (k : Str) (v : JValue) :
    jlookup k (dictSet o k v) = some v := by
  induction o with
  | nil => simp [dictSet, jlookup]
  | cons kv rest ih =>
      obtain ⟨k₁, v₁⟩ := kv
      by_cases hk : k₁ = k
      · simp [dictSet, jlookup, hk]
      · simp [dictSet, jlookup, hk, ih]

/-- Setting one key leaves every other key's binding unchanged. -/
theorem jlookup_dictSet_ne (o : JObj) (k k' : Str) (v : JValue)
    (hne : k' ≠ k) :
    jlookup k' (dictSet o k v) = jlookup k' o := by
  induction o with
  | nil =>
      have h1 : ¬k = k' := fun h => hne h.symm
      simp [dictSet, jlookup, h1]
  | cons kv rest ih =>
      obtain ⟨k₁, v₁⟩ := kv
      by_cases hk : k₁ = k
      · have h1 : ¬k = k' := fun h => hne h.symm
        have h2 : ¬k₁ = k' := by rw [hk]; exact h1
        simp [dictSet, jlookup, hk, h1, h2]
      · by_cases hk2 : k₁ = k'
        · simp [dictSet, jlookup, hk, hk2, hne]
        · simp [dictSet, jlookup, hk, hk2, ih]

/-- Looking past a dumped field whose alias is a different key. -/
theorem jlookup_optObjField_ne (k k' : Str) (v : Option JObj) (rest : JObj)
    (hne : ¬k = k') :
    jlookup k' (optObjField k v ++ rest) = jlookup k' rest := by
  cases v <;> simp [optObjField, jlookup, hne]

/-- Looking past a dumped integer field whose alias is a different key. -/
theorem jlookup_optIntField_ne (k k' : Str) (v : Option Int) (rest : JObj)
    (hne : ¬k = k') :
    jlookup k' (optIntField k v ++ rest) = jlookup k' rest := by
  cases v <;> simp [optIntField, jlookup, hne]

/-- Looking up a dumped field at its own alias. -/
theorem jlookup_optObjField_self (k : Str) (v : Option JObj) (rest : JObj) :
    jlookup k (optObjField k v ++ rest) =
      match v with
      | some o => some (JValue.obj o)
      | none => jlookup k rest := by
  cases v <;> simp [optObjField, jlookup]

/-- A dumped blueprint state binds `goal` exactly when the field is not
None: an explicit None is omitted like an unspecified one. -/
theorem model_dump_goal (b : CharacterBlueprintState) :
    jlookup goalKey b.model_dump =
      match b.goal with
      | some o => some (JValue.obj o)
      | none => none := by
  unfold CharacterBlueprintState.model_dump
  rw [jlookup_optObjField_ne _ _ _ _ (by decide),
    jlookup_optObjField_ne _ _ _ _ (by decide),
    jlookup_optObjField_ne _ _ _ _ (by decide),
    jlookup_optObjField_ne _ _ _ _ (by decide),
    jlookup_optObjField_self]
  cases b.goal with
  | some o => rfl
  | none =>
      rw [jlookup_optObjField_ne _ _ _ _ (by decide),
        jlookup_optIntField_ne _ _ _ _ (by decide),
        jlookup_optObjField_ne _ _ _ _ (by decide)]
      have hpg : ¬prototypeKey = goalKey := by decide
      cases hb : b.prototype <;> simp [optObjField, jlookup, hb, hpg]

/-- C5 counterexample: a partial state passed as a `CharacterBlueprintState`
whose `goal` the caller explicitly set to None (and whose `backstory` is
provided) serializes to a body with no `goal` key at all — the explicitly
null section does not appear in the request body, contradicting the claim
on the model-valued branch of `upsert_blueprint_state`. -/
theorem upsert_body_counterexample :
    jlookup goalKey
      (upsert_blueprint_state_body
        (BlueprintArg.state
          ⟨none, none, none, none, none,
            some [(("x").toList, JValue.num 1)], none, none, none⟩)
        (("c1").toList)) = none
    ∧ upsert_blueprint_state_body
        (BlueprintArg.state
          ⟨none, none, none, none, none,
            some [(("x").toList, JValue.num 1)], none, none, none⟩)
        (("c1").toList) =
      [(backstoryKey, JValue.obj [(("x").toList, JValue.num 1)]),
        (characterIdKey, JValue.str (("c1").toList))] :=
  ⟨rfl, rfl⟩

/-- C5 (amended): On the dict-valued branch the upsert body binds exactly
the caller's top-level section keys — values preserved verbatim, including
a section explicitly set to null — plus the character id, and no other
keys; in particular a dict holding only `goal` serializes to a body holding
only `goal` and `characterId`.  On the `CharacterBlueprintState` branch the
body carries the character id and exactly the non-None sections with their
values; a section that is None — explicitly set or unspecified, which the
model cannot distinguish — is omitted from the body. -/
theorem upsert_body_claim (blueprint : JObj) (b : CharacterBlueprintState)
    (cid : Str) (g : JValue) :
    jlookup characterIdKey
        (upsert_blueprint_state_body (BlueprintArg.dict blueprint) cid) =
      some (JValue.str cid)
    ∧ (∀ k, k ≠ characterIdKey →
        jlookup k (upsert_blueprint_state_body (BlueprintArg.dict blueprint) cid) =
          jlookup k blueprint)
    ∧ (∀ k,
        (jlookup k (upsert_blueprint_state_body (BlueprintArg.dict blueprint) cid)).isSome ↔
        ((jlookup k blueprint).isSome ∨ k = characterIdKey))
    ∧ upsert_blueprint_state_body (BlueprintArg.dict [(goalKey, g)]) cid =
        [(goalKey, g), (characterIdKey, JValue.str cid)]
    ∧ upsert_blueprint_state_body (BlueprintArg.dict [(goalKey, JValue.null)]) cid =
        [(goalKey, JValue.null), (characterIdKey, JValue.str cid)]
    ∧ jlookup characterIdKey
        (upsert_blueprint_state_body (BlueprintArg.state b) cid) =
      some (JValue.str cid)
    ∧ (∀ o, b.goal = some o →
        jlookup goalKey (upsert_blueprint_state_body (BlueprintArg.state b) cid) =
          some (JValue.obj o))
    ∧ (b.goal = none →
        jlookup goalKey (upsert_blueprint_state_body (BlueprintArg.state b) cid) =
          none) := by
  have hgc : goalKey ≠ characterIdKey := by decide
  refine ⟨jlookup_dictSet_self blueprint characterIdKey (JValue.str cid),
    fun k hk => jlookup_dictSet_ne blueprint characterIdKey k (JValue.str cid) hk,
    ?_, rfl, rfl,
    jlookup_dictSet_self b.model_dump characterIdKey (JValue.str cid),
    ?_, ?_⟩
  · intro k
    by_cases hk : k = characterIdKey
    · subst hk
      simp [upsert_blueprint_state_body, jlookup_dictSet_self]
    · simp [upsert_blueprint_state_body,
        jlookup_dictSet_ne blueprint characterIdKey k _ hk, hk]
  · intro o ho
    have h := jlookup_dictSet_ne b.model_dump characterIdKey goalKey
      (JValue.str cid) hgc
    simp only [upsert_blueprint_state_body]
    rw [h, model_dump_goal, ho]
  · intro ho
    have h := jlookup_dictSet_ne b.model_dump characterIdKey goalKey
      (JValue.str cid) hgc
    simp only [upsert_blueprint_state_body]
    rw [h, model_dump_goal, ho]

/-- C5 witness: a concrete dict-valued state with only a null `goal`
section keeps it, while a concrete model-valued state with `goal` None
drops it. -/
theorem upsert_body_claim_w :
    jlookup goalKey
      (upsert_blueprint_state_body (BlueprintArg.dict [(goalKey, JValue.null)])
        (("c1").toList)) = some JValue.null
    ∧ jlookup goalKey
      (upsert_blueprint_state_body
        (BlueprintArg.state ⟨none, none, none, none, none, none, none, none, none⟩)
        (("c1").toList)) = none :=
  ⟨((upsert_body_claim [(goalKey, JValue.null)]
      ⟨none, none, none, none, none, none, none, none, none⟩
      (("c1").toList) JValue.null).2.1 goalKey (by decide)).trans rfl,
   (upsert_body_claim [(goalKey, JValue.null)]
      ⟨none, none, none, none, none, none, none, none, none⟩
      (("c1").toList) JValue.null).2.2.2.2.2.2.2 rfl⟩

/-- C8: Two uploads of the same source filename whose drawn random hex
prefixes differ produce distinct storage filenames, and every storage
filename preserves the original filename as a suffix (so an extension
suffix, used for content-type guessing, is preserved as well). -/
theorem unique_filename_claim (t₁ t₂ f : Str)
    (hp : t₁.take 12 ≠ t₂.take 12) :
    make_unique_filename t₁ f ≠ make_unique_filename t₂ f
    ∧ f <:+ make_unique_filename t₁ f
    ∧ (∀ ext, ext <:+ f → ext <:+ make_unique_filename t₁ f) := by
  refine ⟨?_, ?_, ?_⟩
  · intro heq
    unfold make_unique_filename at heq
    have hlen : (t₁.take 12).length = (t₂.take 12).length := by
      have := congrArg List.length heq
      simpa using this
    exact hp (List.append_inj_left heq hlen)
  · exact ⟨t₁.take 12 ++ ['_'], by simp [make_unique_filename]⟩
  · intro ext hext
    exact hext.trans ⟨t₁.take 12 ++ ['_'], by simp [make_unique_filename]⟩

/-- C8 witness: two concrete uploads of photo.png with different random
prefixes yield distinct names both ending in photo.png. -/
theorem unique_filename_claim_w :
    make_unique_filename (("a0a0a0a0a0a0").toList) (("photo.png").toList) ≠
      make_unique_filename (("b1b1b1b1b1b1").toList) (("photo.png").toList)
    ∧ ("photo.png").toList <:+
        make_unique_filename (("a0a0a0a0a0a0").toList) (("photo.png").toList) :=
  ⟨(unique_filename_claim (("a0a0a0a0a0a0").toList) (("b1b1b1b1b1b1").toList)
      (("photo.png").toList) (by decide)).1,
   (unique_filename_claim (("a0a0a0a0a0a0").toList) (("b1b1b1b1b1b1").toList)
      (("photo.png").toList) (by decide)).2.1⟩

/-- Against responses whose every page but the last has more and whose last
does not, the loop consumes exactly those responses and yields every item. -/
theorem iter_exhausts {α : Type} (front : List (RespPage α)) (last : RespPage α)
    (hfront : ∀ p ∈ front, p.has_more = true) (hlast : last.has_more = false)
    (c : Option Str) :
    iterRun c (front ++ [last]) =
      some (c :: front.map RespPage.cursor,
        ((front ++ [last]).map RespPage.items).flatten) := by
  induction front generalizing c with
  | nil => simp [iterRun, hlast]
  | cons p rest ih =>
      have hp : p.has_more = true := hfront p (by simp)
      have hrest : ∀ q ∈ rest, q.has_more = true := fun q hq => hfront q (by simp [hq])
      simp [iterRun, hp, ih hrest p.cursor]

/-- C3: When the server's responses are `front ++ [last]` with every `front`
page flagged has-more and `last` not, the auto-paginating iterator yields
exactly the concatenation of the pages' items in page order, issues exactly
one request per page (terminating right after the first page whose has-more
is false), and every invocation's first request carries no cursor (a fresh
traversal from page 1); with pages of sizes 2, 2, 1 it yields the 5 items. -/
theorem pagination_claim {α : Type} (front : List (RespPage α)) (last : RespPage α)
    (hfront : ∀ p ∈ front, p.has_more = true) (hlast : last.has_more = false) :
    iterRun none (front ++ [last]) =
      some (none :: front.map RespPage.cursor,
        ((front ++ [last]).map RespPage.items).flatten)
    ∧ (iterRun none (front ++ [last])).map (fun r => r.1.length) =
        some (front.length + 1)
    ∧ (iterRun none (front ++ [last])).map (fun r => r.1.head?) =
        some (some none)
    ∧ iterRun none
        ([⟨[1, 2], some (("c1").toList), true⟩,
          ⟨[3, 4], some (("c2").toList), true⟩,
          ⟨[5], none, false⟩] : List (RespPage Nat)) =
        some ([none, some (("c1").toList), some (("c2").toList)],
          [1, 2, 3, 4, 5]) := by
  have h := iter_exhausts front last hfront hlast none
  refine ⟨h, ?_, ?_, by rfl⟩
  · rw [h]; simp
  · rw [h]; simp

/-- C3 witness: two has-more pages followed by a final page. -/
theorem pagination_claim_w :
    iterRun none
      ([⟨[10, 20], some (("k").toList), true⟩,
        ⟨[30], none, false⟩] : List (RespPage Nat)) =
      some ([none, some (("k").toList)], [10, 20, 30]) := by
  have h := pagination_claim
    ([⟨[10, 20], some (("k").toList), true⟩] : List (RespPage Nat))
    (⟨[30], none, false⟩ : RespPage Nat)
    (by intro p hp; simp at hp; rw [hp]) (by rfl)
  simpa using h.1

/-- C4: On a successful mock run, upload-to-album issues exactly presign,
raw PUT, media create, add-to-album in that order and returns an
UploadResult whose album_id is the albumId from the add-to-album response;
plain upload issues only presign, raw PUT, media create and returns
album_id none. -/
theorem upload_composition_claim (srv : MockServer) (guess : Str → Option Str)
    (uuidHex : Str) (cid : Str) (content : List Nat) (filename : Str)
    (content_type : Option Str) (kind : Kind) (source : Option Str)
    (captured : Bool) :
    (upload_bytes_to_album srv guess uuidHex cid content filename
        content_type kind source captured).1.map Call.kindOf =
      [CallKind.presign, CallKind.putRaw, CallKind.createMedia,
        CallKind.addToAlbum]
    ∧ (upload_bytes_to_album srv guess uuidHex cid content filename
        content_type kind source captured).1 =
      (upload_bytes srv guess uuidHex content filename content_type
          kind source).1 ++
        [Call.addToAlbum cid srv.createResp.media_id captured]
    ∧ (upload_bytes_to_album srv guess uuidHex cid content filename
        content_type kind source captured).2.album_id = some srv.addAlbumId
    ∧ (upload_bytes srv guess uuidHex content filename content_type
        kind source).1.map Call.kindOf =
      [CallKind.presign, CallKind.putRaw, CallKind.createMedia]
    ∧ (upload_bytes srv guess uuidHex content filename content_type
        kind source).2.album_id = none :=
  ⟨rfl, rfl, rfl, rfl, rfl⟩

/-- C7: The raw-bytes PUT issues exactly one request (no retry) carrying
only the Content-Type header — never the client's Authorization header —
succeeds exactly when the status is 2xx, and fails with the transport-level
error (never an API-error kind) on every non-2xx status or network failure. -/
theorem raw_put_claim (r : RawResult) (url : Str) (content : List Nat)
    (ct : Str) :
    (put_file r url content ct).1 = [⟨url, [(contentTypeHeader, ct)], content⟩]
    ∧ (put_file r url content ct).1.length = 1
    ∧ hasHeader (⟨url, [(contentTypeHeader, ct)], content⟩ : RawRequest).headers
        authHeader = false
    ∧ ((put_file r url content ct).2 = Except.ok () ↔ is2xx r = true)
    ∧ isApiOutcome (put_file r url content ct).2 = false := by
  have hct : ¬(contentTypeHeader = authHeader) := by decide
  refine ⟨rfl, rfl, by simp [hasHeader, hct], ?_, ?_⟩
  · cases r with
    | status n =>
        by_cases h : 200 ≤ n ∧ n ≤ 299 <;> simp [put_file, is2xx, h]
    | netFail => simp [put_file, is2xx]
  · cases r with
    | status n =>
        by_cases h : 200 ≤ n ∧ n ≤ 299 <;> simp [put_file, isApiOutcome, h]
    | netFail => rfl

/-- A successfully parsed kind/payload pair always agrees: the payload is
built by the parser selected from the kind. -/
theorem decodeKindPayload_matches (kindV : JValue) (po : JObj)
    (k : Kind) (p : MPayload) (h : decodeKindPayload kindV po = some (k, p)) :
    payloadMatchesKind k p = true := by
  cases kindV
  case str s =>
    simp only [decodeKindPayload] at h
    split_ifs at h
    all_goals
      rcases Option.map_eq_some'.mp h with ⟨q, hq, hpair⟩
      injection hpair with h1 h2
      subst h1; subst h2
      rfl
  all_goals exact Option.noConfusion h

/-- C6: Every MediaAsset produced by decoding a service response satisfies
the discriminant invariant — the payload's active variant matches `kind` —
because decoding inspects `kind` first and parses the matching variant. -/
theorem media_kind_claim (j : JValue) (m : MediaAsset)
    (h : decodeMediaAsset j = some m) :
    payloadMatchesKind m.kind m.payload = true := by
  cases j with
  | obj o =>
      simp only [decodeMediaAsset] at h
      split at h
      next mid kindV po h1 h2 h3 =>
        split at h
        next kp hkp =>
          split at h
          next pr pm ca h4 h5 h6 =>
            injection h with hm
            subst hm
            exact decodeKindPayload_matches kindV po kp.1 kp.2 hkp
          next => exact Option.noConfusion h
        next => exact Option.noConfusion h
      next => exact Option.noConfusion h
  | null => exact Option.noConfusion h
  | bool b => exact Option.noConfusion h
  | num n => exact Option.noConfusion h
  | str s => exact Option.noConfusion h
  | arr xs => exact Option.noConfusion h

/-- C6 witness: a concrete image response decodes to an asset whose payload
variant matches its kind. -/
theorem media_kind_claim_w :
    payloadMatchesKind Kind.image
      (MPayload.image ⟨("u").toList, none, none⟩) = true :=
  media_kind_claim
    (JValue.obj [(mediaIdKey, JValue.str (("m1").toList)),
      (kindKey, JValue.str (("image").toList)),
      (payloadKey, JValue.obj [(imageUrlKey, JValue.str (("u").toList))])])
    ⟨("m1").toList, Kind.image, MPayload.image ⟨("u").toList, none, none⟩,
      none, none, none⟩
    (by rfl)

/-- Validating a raw items list preserves its length. -/
theorem decodeAssetList_length (xs : List JValue)
    (items : List CreationAsset) (h : decodeAssetList xs = some items) :
    items.length = xs.length := by
  induction xs generalizing items with
  | nil =>
      simp only [decodeAssetList] at h
      injection h with h1
      subst h1
      rfl
  | cons j rest ih =>
      simp only [decodeAssetList] at h
      split at h
      next a tail ha htail =>
        injection h with h1
        subst h1
        simp [ih tail htail]
      next => exact Option.noConfusion h

/-- C9 counterexample: a response carrying one decodable item but a `total`
field of 2 decodes to a page whose `total` is 2 while its items sequence
has length 1 — `total` is not the count of items in the page. -/
theorem assets_total_counterexample :
    (assets_list
        [(itemsKey, JValue.arr
            [JValue.obj [(idKey, JValue.str (("a1").toList)),
              (mediaKey, JValue.obj
                [(mediaIdKey, JValue.str (("m1").toList)),
                  (kindKey, JValue.str (("image").toList)),
                  (payloadKey, JValue.obj
                    [(imageUrlKey, JValue.str (("u").toList))])]),
              (objectNameKey, JValue.str (("o").toList)),
              (nameKey, JValue.str (("n").toList)),
              (typeKey, JValue.str (("t").toList))]]),
          (totalKey, JValue.num 2)]).map
      (fun p => (p.total, (p.items.length : Int))) = some (2, 1) := by rfl

/-- C9 (amended): the decoded page's `total` is copied verbatim from the
response payload's `total` field (0 when absent) — the client does not
enforce it; the page's items are in bijection with the response's raw
items, so whenever the response's own `total` equals its item count, the
decoded page does satisfy total = length of items. -/
theorem assets_total_claim (data : JObj) (p : CreationAssetPage)
    (h : assets_list data = some p) :
    (jlookup totalKey data = some (JValue.num p.total)
      ∨ (jlookup totalKey data = none ∧ p.total = 0))
    ∧ (∀ xs, jlookup itemsKey data = some (JValue.arr xs) →
        p.items.length = xs.length)
    ∧ (∀ xs, jlookup itemsKey data = some (JValue.arr xs) →
        jlookup totalKey data = some (JValue.num (xs.length : Int)) →
        p.total = (p.items.length : Int)) := by
  simp only [assets_list] at h
  split at h
  next => exact Option.noConfusion h
  next raw hraw =>
    split at h
    next items nextInfo hitems hnext =>
      split at h
      next cur hm tot hcur hhm htot =>
        injection h with h1
        subst h1
        refine ⟨?_, ?_, ?_⟩
        · rcases hv : jlookup totalKey data with _ | w
          · rw [hv] at htot
            simp only [decodeTotal] at htot
            injection htot with h2
            subst h2
            exact Or.inr ⟨rfl, rfl⟩
          · rw [hv] at htot
            cases w
            case num n =>
              simp only [decodeTotal] at htot
              injection htot with h2
              subst h2
              exact Or.inl rfl
            all_goals
              simp only [decodeTotal] at htot
              exact Option.noConfusion htot
        · intro xs hxs
          rw [hxs] at hraw
          simp only [decodeItemsRaw] at hraw
          injection hraw with h2
          subst h2
          exact decodeAssetList_length xs items hitems
        · intro xs hxs hxt
          rw [hxs] at hraw
          simp only [decodeItemsRaw] at hraw
          injection hraw with h2
          subst h2
          rw [hxt] at htot
          simp only [decodeTotal] at htot
          injection htot with h3
          rw [← h3]
          exact_mod_cast congrArg Nat.cast
            (decodeAssetList_length xs items hitems).symm
      next => exact Option.noConfusion h
    next => exact Option.noConfusion h

/-- C9 amended-claim witness: a concrete response whose `total` matches its
single item, so the decoded page satisfies total = length of items. -/
theorem assets_total_claim_w :
    (⟨[⟨("a2").toList,
        ⟨("m2").toList, Kind.audio, MPayload.audio ⟨("a").toList, none⟩,
          none, none, none⟩,
        ("o").toList, ("n").toList, ("t").toList, none⟩],
      none, false, 1⟩ : CreationAssetPage).total =
    ((⟨[⟨("a2").toList,
        ⟨("m2").toList, Kind.audio, MPayload.audio ⟨("a").toList, none⟩,
          none, none, none⟩,
        ("o").toList, ("n").toList, ("t").toList, none⟩],
      none, false, 1⟩ : CreationAssetPage).items.length : Int) :=
  (assets_total_claim
    [(itemsKey, JValue.arr
        [JValue.obj [(idKey, JValue.str (("a2").toList)),
          (mediaKey, JValue.obj
            [(mediaIdKey, JValue.str (("m2").toList)),
              (kindKey, JValue.str (("audio").toList)),
              (payloadKey, JValue.obj
                [(audioUrlKey, JValue.str (("a").toList))])]),
          (objectNameKey, JValue.str (("o").toList)),
          (nameKey, JValue.str (("n").toList)),
          (typeKey, JValue.str (("t").toList))]]),
      (totalKey, JValue.num 1)]
    ⟨[⟨("a2").toList,
        ⟨("m2").toList, Kind.audio, MPayload.audio ⟨("a").toList, none⟩,
          none, none, none⟩,
        ("o").toList, ("n").toList, ("t").toList, none⟩],
      none, false, 1⟩ rfl).2.2
    [JValue.obj [(idKey, JValue.str (("a2").toList)),
      (mediaKey, JValue.obj
        [(mediaIdKey, JValue.str (("m2").toList)),
          (kindKey, JValue.str (("audio").toList)),
          (payloadKey, JValue.obj
            [(audioUrlKey, JValue.str (("a").toList))])]),
      (objectNameKey, JValue.str (("o").toList)),
      (nameKey, JValue.str (("n").toList)),
      (typeKey, JValue.str (("t").toList))]] rfl rfl

end Pika
